import Mathlib

/-
  Shallow embedding of the dfs3 node (joseigbv/dfs3) for checking its
  specification: the event ingestion pipeline (src/core/event_handler.py,
  src/core/events.py), the file metadata / entry model (src/core/files.py),
  the node and user registries (src/core/nodes.py, src/core/users.py), the
  upload and proxy-while-store paths (src/api/routes/files.py) and the
  low-level signature check (src/utils/crypto.py).

  External libraries (PyNaCl, hashlib, base64, json canonicalisation) are
  uninterpreted: they enter as fields of a `CryptoLib` record, with `Except`
  results standing for Python exceptions.  Everything written by the
  repository itself is translated function by function.
-/

namespace Dfs3

/-- Raw bytes (Python `bytes`) as a list of byte values. -/
abbrev Bytes := List Nat

/-- models/events.py AuthorizedUserEntry: (user_id, encrypted_key, iv). -/
structure AuthorizedUser where
  user_id : String
  encrypted_key : String
  iv : String
deriving DecidableEq, Repr

/-- models/events.py NodeRegisteredEventPayload.
`alias` is a Lean keyword, rendered `alias_field`. -/
structure NodeRegisteredPayload where
  alias_field : String
  hostname : String
  public_key : String
  platform : String
  software_version : String
  uptime : Nat
  total_space : Nat
  ip : String
  port : Nat
  tags : List String
  version : Nat
deriving DecidableEq, Repr

/-- models/events.py NodeStatusEventPayload. -/
structure NodeStatusPayload where
  ip : String
  port : Nat
  uptime : Nat
  total_space : Nat
deriving DecidableEq, Repr

/-- models/events.py UserRegisteredEventPayload. -/
structure UserRegisteredPayload where
  user_id : String
  alias_field : String
  name : String
  email : Option String
  public_key : String
  tags : List String
  version : Nat
deriving DecidableEq, Repr

/-- models/events.py UserJoinedNodeEventPayload. -/
structure UserJoinedNodePayload where
  user_id : String
  challenge : String
  public_key : String
  signature : String
deriving DecidableEq, Repr

/-- models/events.py FileCreatedEventPayload. -/
structure FileCreatedPayload where
  user_id : String
  file_id : String
  filename : String
  size : Nat
  mimetype : String
  sha256 : String
  iv : String
  authorized_users : List AuthorizedUser
  tags : List String
  version : Nat
deriving DecidableEq, Repr

/-- models/events.py FileSharedEventPayload. -/
structure FileSharedPayload where
  user_id : String
  file_id : String
  filename : String
  authorized_users : List AuthorizedUser
deriving DecidableEq, Repr

/-- models/events.py FileBaseEventPayload, used by file_accessed and
file_deleted. -/
structure FileRefPayload where
  user_id : String
  file_id : String
  filename : String
deriving DecidableEq, Repr

/-- models/events.py FileRenamedEventPayload. -/
structure FileRenamedPayload where
  user_id : String
  file_id : String
  filename : String
  new_name : String
deriving DecidableEq, Repr

/-- models/events.py FileReplicatedEventPayload (file_copied has the same
shape). -/
structure FileReplicatedPayload where
  file_id : String
deriving DecidableEq, Repr

/-- The payload of an envelope, already parsed into the per-type schema
(pydantic does this parse when the typed event model is constructed in the
handlers; an envelope whose payload does not match its event_type raises
there and is outside this embedding). -/
inductive Payload where
  | node_registered (p : NodeRegisteredPayload)
  | node_status (p : NodeStatusPayload)
  | user_registered (p : UserRegisteredPayload)
  | user_joined_node (p : UserJoinedNodePayload)
  | file_created (p : FileCreatedPayload)
  | file_shared (p : FileSharedPayload)
  | file_accessed (p : FileRefPayload)
  | file_renamed (p : FileRenamedPayload)
  | file_deleted (p : FileRefPayload)
  | file_replicated (p : FileReplicatedPayload)
  | file_copied (p : FileReplicatedPayload)
deriving DecidableEq, Repr

/-- The event_type string of a payload (core/constants.py EV_*). -/
def Payload.eventType : Payload → String
  | .node_registered _ => "node_registered"
  | .node_status _ => "node_status"
  | .user_registered _ => "user_registered"
  | .user_joined_node _ => "user_joined_node"
  | .file_created _ => "file_created"
  | .file_shared _ => "file_shared"
  | .file_accessed _ => "file_accessed"
  | .file_renamed _ => "file_renamed"
  | .file_deleted _ => "file_deleted"
  | .file_replicated _ => "file_replicated"
  | .file_copied _ => "file_copied"

/-- models/events.py BaseEvent: the signed envelope.  `timestamp` is the
epoch-seconds integer the handlers extract (`int(event.timestamp.timestamp())`). -/
structure Event where
  timestamp : Nat
  node_id : String
  protocol : String
  payload : Payload
  signature : String
deriving DecidableEq, Repr

/-- event.event_type; coherent with the parsed payload. -/
def Event.eventType (e : Event) : String := e.payload.eventType

/-- Uninterpreted surface of the external libraries used by the repository:
`b64decode` (base64 stdlib, `.error` = raised exception), `sha256hex`
(hashlib `sha256(...).hexdigest()`), `utf8encode` (`str.encode`),
`makeVerifyKey` (the `nacl.signing.VerifyKey` constructor, which raises on a
malformed key), `edVerifyE` (VerifyKey.verify: `.ok true` = success,
`.ok false` = BadSignatureError, `.error` = any other exception), and
`canonical` (the canonical JSON bytes of an envelope with the signature
field removed, as computed in event_handler.verify_signature). -/
structure CryptoLib where
  b64decode : String → Except String Bytes
  sha256hex : Bytes → String
  utf8encode : String → Bytes
  makeVerifyKey : Bytes → Except String Unit
  edVerifyE : Bytes → Bytes → Bytes → Except String Bool
  canonical : Event → Bytes

-- ---------------------------------------------------------------------
-- Local state: the SQLite tables, the .meta / .users / .storage trees.
-- ---------------------------------------------------------------------

/-- Row of the `events` table (core/events.py save_event). -/
structure EventRow where
  event_type : String
  timestamp : Nat
  node_id : String
deriving DecidableEq, Repr

/-- Row of the `nodes` table (core/nodes.py save). -/
structure NodeRow where
  alias_field : String
  hostname : String
  public_key : String
  platform : String
  software_version : String
  uptime : Nat
  total_space : Nat
  ip : String
  port : Nat
  tags : String
  creation_date : Nat
  version : Nat
  last_seen : Nat
deriving DecidableEq, Repr

/-- Row of the `users` table (core/users.py register). -/
structure UserRow where
  alias_field : String
  name : String
  email : Option String
  public_key : String
  creation_date : Nat
  last_seen : Nat
deriving DecidableEq, Repr

/-- The on-disk metadata JSON document built by core/files.py create:
the file_created payload minus user_id and filename, plus owner,
creation_date, replica_nodes and version. -/
structure FileMeta where
  file_id : String
  size : Nat
  mimetype : String
  sha256 : String
  iv : String
  authorized_users : List AuthorizedUser
  tags : List String
  version : Nat
  owner : String
  creation_date : Nat
  replica_nodes : List String
deriving DecidableEq, Repr

/-- The node's local observable state: the event index, the node and user
registries, the shared metadata directory (`.meta/<file_id>.json`), the
per-user entry hard links (`.users/<user_id>/<filename>`, modelled as the
link table (user_id, filename) → file_id), and the blob store
(`.storage/<file_id>.dat`). -/
structure NodeState where
  events : List (String × EventRow)
  nodes : List (String × NodeRow)
  users : List (String × UserRow)
  meta : List (String × FileMeta)
  entries : List ((String × String) × String)
  storage : List (String × Bytes)
deriving DecidableEq, Repr

/-- context.config fields the ingestion path reads. -/
structure Config where
  node_id : String
  status : String
deriving DecidableEq, Repr

/-- Keyed upsert on an association list (SQL ON CONFLICT DO UPDATE /
truncating file write): replaces the binding if present, appends otherwise. -/
def upsert {α : Type} [DecidableEq α] {β : Type} (l : List (α × β)) (k : α) (v : β) :
    List (α × β) :=
  if l.any (fun p => p.1 = k) then
    l.map (fun p => if p.1 = k then (k, v) else p)
  else
    l ++ [(k, v)]

/-- Association-list lookup (SELECT ... WHERE key = ?). -/
def lookupA {α : Type} [DecidableEq α] {β : Type} (l : List (α × β)) (k : α) : Option β :=
  (l.find? (fun p => p.1 = k)).map (fun p => p.2)

-- ---------------------------------------------------------------------
-- Decimal rendering (Python f-string interpolation of an int) and
-- os.path.splitext, needed by core/files.py get_available_filename_path.
-- ---------------------------------------------------------------------

/-- One decimal digit as a character. -/
def digChar : Nat → Char
  | 0 => '0' | 1 => '1' | 2 => '2' | 3 => '3' | 4 => '4'
  | 5 => '5' | 6 => '6' | 7 => '7' | 8 => '8' | 9 => '9'
  | _ => '*'

/-- Fuel-bounded decimal rendering of a natural number, most significant
digit first. -/
def natDecCore : Nat → Nat → List Char
  | 0, _ => []
  | fuel + 1, n =>
    if n < 10 then [digChar n]
    else natDecCore fuel (n / 10) ++ [digChar (n % 10)]

/-- Decimal rendering of a natural number, as Python renders an `int`. -/
def natDec (n : Nat) : String := ⟨natDecCore (n + 1) n⟩

/-- Numeric value of a decimal digit character. -/
def digVal (c : Char) : Nat := c.toNat - 48

/-- Parse a decimal digit string back to a number (left inverse of natDec). -/
def parseDec (l : List Char) : Nat := l.foldl (fun a c => a * 10 + digVal c) 0

/-- os.path.splitext on a filename without path separators: split at the
last dot, unless every character before it is a dot. -/
def splitExt (s : String) : String × String :=
  let cs := s.data
  match (List.range cs.length).filter (fun i => cs.getD i ' ' = '.') |>.getLast? with
  | none => (s, "")
  | some i =>
    if (cs.take i).all (fun c => c = '.') then (s, "")
    else (⟨cs.take i⟩, ⟨cs.drop i⟩)

/-- The candidate filename `f"{name} ({counter}){ext}"` built by
get_available_filename_path. -/
def candName (name ext : String) (counter : Nat) : String :=
  name ++ " (" ++ natDec counter ++ ")" ++ ext

/-- The while loop of get_available_filename_path, fuel-bounded: try
`name (counter)ext`, `name (counter+1)ext`, ... until one is not taken.
`taken` is the user's directory listing (candidate.exists()). -/
def availLoop (taken : List String) (name ext : String) : Nat → Nat → String
  | 0, counter => candName name ext counter
  | fuel + 1, counter =>
    let c := candName name ext counter
    if c ∈ taken then availLoop taken name ext fuel (counter + 1) else c

/-- core/files.py get_available_filename_path, over the list of filenames
already present in the user's directory.  The source loop is unbounded;
`taken.length + 1` fuel always suffices (proved below), so the bounded
loop has the same value. -/
def get_available_filename_path (taken : List String) (desired_name : String) : String :=
  let ne := splitExt desired_name
  if desired_name ∈ taken then availLoop taken ne.1 ne.2 (taken.length + 1) 1
  else desired_name

-- ---------------------------------------------------------------------
-- Constants (core/constants.py) and small validators.
-- ---------------------------------------------------------------------

/-- core/constants.py MAX_FILE_SIZE = 10 * 1024 * 1024. -/
def MAX_FILE_SIZE : Nat := 10 * 1024 * 1024

/-- core/constants.py EC_MIN_SIZE = 1 * 1024 * 1024 (fragment threshold). -/
def EC_MIN_SIZE : Nat := 1024 * 1024

/-- models/events.py FileCreatedEventPayload.check_duplicate_user_ids:
the payload validator that rejects duplicate user_ids in authorized_users. -/
def check_duplicate_user_ids (users : List AuthorizedUser) : Bool :=
  let ids := users.map (fun u => u.user_id)
  ids.all (fun uid => decide (ids.count uid ≤ 1))

/-- A lowercase hex character (the RE_USER_ID / RE_FILE_ID character class). -/
def isLowerHexChar (c : Char) : Bool :=
  ('0' ≤ c && c ≤ '9') || ('a' ≤ c && c ≤ 'f')

/-- RE_USER_ID / RE_FILE_ID / RE_NODE_ID: 64 lowercase hex characters. -/
def isHex64 (s : String) : Bool :=
  s.length = 64 && s.data.all isLowerHexChar

/-- ",".join(tags). -/
def joinComma (l : List String) : String := String.intercalate "," l

-- ---------------------------------------------------------------------
-- Registries (core/nodes.py, core/users.py).
-- ---------------------------------------------------------------------

/-- Stable insertion of an element into a sorted list (for the
deterministic ORDER BY of the spec-side eligibility query). -/
def insertBy {α : Type} (le : α → α → Bool) (a : α) : List α → List α
  | [] => [a]
  | b :: l => if le a b then a :: b :: l else b :: insertBy le a l

/-- Stable insertion sort (deterministic ORDER BY). -/
def sortBy {α : Type} (le : α → α → Bool) : List α → List α
  | [] => []
  | a :: l => insertBy le a (sortBy le l)

/-- core/nodes.py get / get_public_key: read-through registry lookup of a
node's base64 public key (the LRU cache is a transparent read-through
cache and is not reified). -/
def get_public_key_node (st : NodeState) (node_id : String) : Option String :=
  (lookupA st.nodes node_id).map (fun r => r.public_key)

/-- core/nodes.py save: upsert of the full node row from a node_registered
event (ON CONFLICT(node_id) DO UPDATE of every field). -/
def save_node (st : NodeState) (e : Event) (p : NodeRegisteredPayload) : NodeState :=
  let tstamp := e.timestamp
  let row : NodeRow :=
    { alias_field := p.alias_field, hostname := p.hostname,
      public_key := p.public_key, platform := p.platform,
      software_version := p.software_version, uptime := p.uptime,
      total_space := p.total_space, ip := p.ip, port := p.port,
      tags := joinComma p.tags, creation_date := tstamp,
      version := p.version, last_seen := tstamp }
  { st with nodes := upsert st.nodes e.node_id row }

/-- core/nodes.py update: UPDATE of the dynamic fields from a node_status
event; a missing node only logs a warning. -/
def update_node (st : NodeState) (e : Event) (p : NodeStatusPayload) : NodeState :=
  match lookupA st.nodes e.node_id with
  | none => st
  | some row =>
    let row2 := { row with ip := p.ip, port := p.port, uptime := p.uptime,
                           total_space := p.total_space, last_seen := e.timestamp }
    { st with nodes := upsert st.nodes e.node_id row2 }

/-- core/users.py register: plain INSERT of the user row; a primary-key
conflict raises and is caught (state unchanged). -/
def register_user (st : NodeState) (e : Event) (p : UserRegisteredPayload) : NodeState :=
  if (lookupA st.users p.user_id).isSome then st
  else
    { st with users := st.users ++
        [(p.user_id,
          { alias_field := p.alias_field, name := p.name, email := p.email,
            public_key := p.public_key, creation_date := e.timestamp,
            last_seen := e.timestamp })] }

/-- core/users.py update: UPDATE users SET last_seen from a
user_joined_node event; a missing user only logs a warning. -/
def update_user (st : NodeState) (e : Event) (p : UserJoinedNodePayload) : NodeState :=
  match lookupA st.users p.user_id with
  | none => st
  | some row =>
    { st with users := upsert st.users p.user_id { row with last_seen := e.timestamp } }

/-- core/nodes.py should_clone_from: its first statement is
`return context.config["node_id"] != source_node_id`
("TODO para pruebas, cualquier nodo vale"), so the eligibility SQL query
written after it is unreachable dead code. -/
def should_clone_from (cfg : Config) (source_node_id : String) (_size : Nat) : Bool :=
  cfg.node_id != source_node_id

/-- Modelled from the spec: the cloning eligibility criterion of §4.6 —
uptime ≥ 1 day, recently active, sufficient free space, among the top 3 by
free space ordered deterministically, and not currently in seeding state.
It mirrors the unreachable query in core/nodes.py should_clone_from
(uptime >= 86400, last_seen within 10 minutes of `now`, total_space >
size, node_id != source, ORDER BY total_space DESC, node_id ASC, LIMIT 3). -/
def spec_clone_eligibility (st : NodeState) (cfg : Config) (now : Nat)
    (source_node_id : String) (size : Nat) : Bool :=
  let rows := st.nodes.filter (fun q =>
    decide (86400 ≤ q.2.uptime) && decide (now ≤ q.2.last_seen + 600) &&
    decide (size < q.2.total_space) && decide (q.1 ≠ source_node_id))
  let sorted := sortBy (fun a b =>
    decide (b.2.total_space < a.2.total_space) ||
    (decide (a.2.total_space = b.2.total_space) && decide (a.1 ≤ b.1))) rows
  let candidates := (sorted.take 3).map (fun q => q.1)
  decide (cfg.node_id ∈ candidates) && decide (cfg.status ≠ "syncing")

-- ---------------------------------------------------------------------
-- File metadata and entries (core/files.py).
-- ---------------------------------------------------------------------

/-- Directory listing of a user's entry directory. -/
def userFilenames (st : NodeState) (u : String) : List String :=
  st.entries.filterMap (fun q => if q.1.1 = u then some q.1.2 else none)

/-- get_available_filename_path against a user's directory in the state. -/
def availableFilename (st : NodeState) (u desired : String) : String :=
  get_available_filename_path (userFilenames st u) desired

/-- The response of a peer to `GET /api/v1/files/<file_id>/data`, keyed by
(node_id, file_id): `none` is a raised request exception, otherwise
(status_code, body). -/
abbrev Net := String → String → Option (Nat × Bytes)

/-- core/files.py clone: fetch the blob from a remote node, check size and
SHA-256, store it, and send file_replicated.  Returns the new state, the
file_ids for which send_file_replicated_event was invoked, and the boolean
result.  (A publish failure only flips the boolean result after the blob
is already written; the emission log records the send.) -/
def clone (lib : CryptoLib) (net : Net) (st : NodeState)
    (node_id file_id : String) : NodeState × List String × Bool :=
  match lookupA st.nodes node_id with
  | none => (st, [], false)
  | some _ =>
    match net node_id file_id with
    | none => (st, [], false)
    | some (status, content) =>
      if status ≠ 200 then (st, [], false)
      else if content.length > MAX_FILE_SIZE then (st, [], false)
      else if file_id ≠ lib.sha256hex content then (st, [], false)
      else
        ({ st with storage := upsert st.storage file_id content }, [file_id], true)

/-- core/files.py create (the file_created handler): write the metadata
document, hard-link a collision-renamed entry for the owner, and clone the
blob when it is small, should_clone_from holds and the node is not
syncing.  Returns the new state and the file_replicated emission log. -/
def create (lib : CryptoLib) (cfg : Config) (net : Net) (st : NodeState)
    (e : Event) (p : FileCreatedPayload) : NodeState × List String :=
  let metadata : FileMeta :=
    { file_id := p.file_id, size := p.size, mimetype := p.mimetype,
      sha256 := p.sha256, iv := p.iv, authorized_users := p.authorized_users,
      tags := p.tags, version := 1, owner := p.user_id,
      creation_date := e.timestamp, replica_nodes := [e.node_id] }
  let st1 := { st with meta := upsert st.meta p.file_id metadata }
  let entryName := availableFilename st1 p.user_id p.filename
  let st2 := { st1 with entries := st1.entries ++ [((p.user_id, entryName), p.file_id)] }
  if p.size < EC_MIN_SIZE ∧ should_clone_from cfg e.node_id p.size = true ∧
      cfg.status ≠ "syncing" then
    let r := clone lib net st2 e.node_id p.file_id
    (r.1, r.2.1)
  else (st2, [])

/-- The `authorized_users[user.user_id] = user.dict()` update on the
insertion-ordered dict built in core/files.py share. -/
def ordUpsert (l : List AuthorizedUser) (u : AuthorizedUser) : List AuthorizedUser :=
  if l.any (fun v => v.user_id = u.user_id) then
    l.map (fun v => if v.user_id = u.user_id then u else v)
  else l ++ [u]

/-- The body of the per-user loop in core/files.py share: update the
insertion-ordered authorized_users dict and hard-link a collision-renamed
entry for the user. -/
def shareStep (fid fname : String) (acc : List AuthorizedUser × NodeState)
    (u : AuthorizedUser) : List AuthorizedUser × NodeState :=
  let aus := ordUpsert acc.1 u
  let stx := acc.2
  let nm := availableFilename stx u.user_id fname
  (aus, { stx with entries := stx.entries ++ [((u.user_id, nm), fid)] })

/-- core/files.py share (the file_shared handler): merge the payload's
authorized_users into the metadata keyed by user_id (last wins) and
hard-link a collision-renamed entry for every user listed in the payload;
a missing metadata document raises and is caught (state unchanged). -/
def share (st : NodeState) (p : FileSharedPayload) : NodeState :=
  match lookupA st.meta p.file_id with
  | none => st
  | some m =>
    let r := p.authorized_users.foldl (shareStep p.file_id p.filename)
      (m.authorized_users, st)
    { r.2 with meta := upsert r.2.meta p.file_id { m with authorized_users := r.1 } }

/-- core/files.py rename (the file_renamed handler): move the emitter's
entry to a collision-renamed new name (the target name's availability is
checked while the old entry still exists); a missing entry raises and is
caught (state unchanged). -/
def rename (st : NodeState) (p : FileRenamedPayload) : NodeState :=
  match lookupA st.entries (p.user_id, p.filename) with
  | none => st
  | some fid =>
    let nm := availableFilename st p.user_id p.new_name
    { st with entries :=
        st.entries.filter (fun q => decide (q.1 ≠ (p.user_id, p.filename)))
        ++ [((p.user_id, nm), fid)] }

/-- core/files.py delete (the file_deleted handler): unlink the emitter's
entry path only; a missing entry raises FileNotFoundError and is caught
(state unchanged).  Filesystem paths are unique, so removing every binding
of the key is the single unlink. -/
def delete (st : NodeState) (p : FileRefPayload) : NodeState :=
  match lookupA st.entries (p.user_id, p.filename) with
  | none => st
  | some _ =>
    { st with entries :=
        st.entries.filter (fun q => decide (q.1 ≠ (p.user_id, p.filename))) }

/-- core/files.py replicate (the file_replicated handler): append the
emitter to replica_nodes when absent; missing metadata raises and is
caught (state unchanged). -/
def replicate (st : NodeState) (e : Event) (p : FileReplicatedPayload) : NodeState :=
  match lookupA st.meta p.file_id with
  | none => st
  | some m =>
    if e.node_id ∈ m.replica_nodes then st
    else
      let m2 := { m with replica_nodes := m.replica_nodes ++ [e.node_id] }
      { st with meta := upsert st.meta p.file_id m2 }

-- ---------------------------------------------------------------------
-- Signature verification and the ingestion pipeline
-- (core/event_handler.py, core/events.py).
-- ---------------------------------------------------------------------

/-- The tail of core/event_handler.py verify_signature once the base64
public key is chosen: decode key and signature, build the VerifyKey
(its exceptions propagate), verify the canonical content; BadSignatureError
is caught and returns false (edVerifyE's `.ok false`). -/
def verifyWithKey (lib : CryptoLib) (k64 : String) (e : Event) : Except String Bool :=
  match lib.b64decode k64 with
  | .error msg => .error msg
  | .ok kb =>
    match lib.b64decode e.signature with
    | .error msg => .error msg
    | .ok sig =>
      match lib.makeVerifyKey kb with
      | .error msg => .error msg
      | .ok _ => lib.edVerifyE kb (lib.canonical e) sig

/-- core/event_handler.py verify_signature: for node_registered the key is
taken from payload.public_key; for every other type it is looked up from
the node registry and a missing emitter returns false. -/
def verify_signature (lib : CryptoLib) (st : NodeState) (e : Event) : Except String Bool :=
  match e.payload with
  | .node_registered p => verifyWithKey lib p.public_key e
  | _ =>
    match get_public_key_node st e.node_id with
    | none => Except.ok false
    | some k64 => verifyWithKey lib k64 e

/-- core/events.py save_event, inserting into the `events` table.
Modelled from the spec: the `events` table schema is not under src/
(db_init.py creates only users, nodes, files and entries); spec §4.4 says
the event index has block_id as primary key, so the duplicate INSERT
raises and is caught with the table unchanged. -/
def save_event (st : NodeState) (block_id : String) (e : Event) : NodeState :=
  if (lookupA st.events block_id).isSome then st
  else
    { st with events := st.events ++
        [(block_id,
          { event_type := e.eventType, timestamp := e.timestamp,
            node_id := e.node_id })] }

/-- core/event_handler.py process_event: verify the signature (a false
result warns and returns with nothing changed; an exception propagates to
the listener), dispatch to the per-type handler (handle_node_registered
first forces payload version to 1; file_accessed and unhandled types do
nothing), then save the event reference.  The second component is the
file_replicated emission log of the handler step. -/
def process_event (lib : CryptoLib) (cfg : Config) (net : Net) (st : NodeState)
    (e : Event) (block_id : String) : Except String (NodeState × List String) :=
  match verify_signature lib st e with
  | .error msg => .error msg
  | .ok ok =>
  if !ok then Except.ok (st, [])
  else
    let hr : NodeState × List String :=
      match e.payload with
      | .node_registered p => (save_node st e { p with version := 1 }, [])
      | .node_status p => (update_node st e p, [])
      | .user_registered p => (register_user st e p, [])
      | .user_joined_node p => (update_user st e p, [])
      | .file_created p => create lib cfg net st e p
      | .file_shared p => (share st p, [])
      | .file_accessed _ => (st, [])
      | .file_renamed p => (rename st p, [])
      | .file_deleted p => (delete st p, [])
      | .file_replicated p => (replicate st e p, [])
      | .file_copied _ => (st, [])
    Except.ok (save_event hr.1 block_id e, hr.2)

-- ---------------------------------------------------------------------
-- Upload and proxy-while-store (api/routes/files.py).
-- ---------------------------------------------------------------------

/-- api/models/files.py UploadFileMetadata (already pydantic-validated). -/
structure UploadMeta where
  filename : String
  file_id : String
  size : Nat
  mimetype : String
  sha256 : String
  iv : String
  tags : List String
  authorized_users : List AuthorizedUser
deriving DecidableEq, Repr

/-- api/routes/files.py api_upload_file: parse metadata (400 on a
validation error), read the body, reject > MAX_FILE_SIZE with 413, reject
a SHA-256 mismatch with 400, write the blob, publish file_created (500
when publishing fails, with the blob already written).  Returns
(status code, state, whether a file_created event was emitted). -/
def api_upload_file (lib : CryptoLib) (pub : Bool) (st : NodeState)
    (_user_id : String) (meta : Option UploadMeta) (contents : Bytes) :
    Nat × NodeState × Bool :=
  match meta with
  | none => (400, st, false)
  | some m =>
    if contents.length > MAX_FILE_SIZE then (413, st, false)
    else if m.file_id ≠ lib.sha256hex contents then (400, st, false)
    else
      let st1 := { st with storage := upsert st.storage m.file_id contents }
      if pub then (201, st1, true) else (500, st1, false)

/-- api/routes/files.py stream_and_store: the proxy-while-store generator.
`delivered` are the chunks received before the stream ended; `failed` is
true when the peer stream raised or a client disconnect closed the
generator mid-transfer.  Every chunk is written to the local blob path
before being yielded, and the file_replicated emission is reached only
after the loop completes; no branch of the source removes the file, so
the content left on disk is always the concatenation of the delivered
chunks.  Returns (content left at the local path, emitted). -/
def stream_and_store (delivered : List Bytes) (failed : Bool) : Option Bytes × Bool :=
  (some delivered.flatten, !failed)

/-- Modelled from the spec: §4.6 step (d) and §5 Cancellation — "on
failure mid-stream, delete the partial local file"; the content the spec
prescribes at the local blob path after the stream ends. -/
def spec_stream_and_store_file (delivered : List Bytes) (failed : Bool) : Option Bytes :=
  if failed then none else some delivered.flatten

-- ---------------------------------------------------------------------
-- utils/crypto.py verify_signature (the login-challenge check).
-- ---------------------------------------------------------------------

/-- utils/crypto.py verify_signature: build the VerifyKey from the decoded
base64 key and verify the signature over the UTF-8 text; the bare
`except (BadSignatureError, Exception)` catches every exception and
returns False. -/
def utils_verify_signature (lib : CryptoLib) (public_key text signature : String) : Bool :=
  match lib.b64decode public_key with
  | .error _ => false
  | .ok k =>
    match lib.makeVerifyKey k with
    | .error _ => false
    | .ok _ =>
      match lib.b64decode signature with
      | .error _ => false
      | .ok s =>
        match lib.edVerifyE k (lib.utf8encode text) s with
        | .error _ => false
        | .ok b => b

-- ---------------------------------------------------------------------
-- Concrete fixtures for witnesses and counterexamples.
-- ---------------------------------------------------------------------

/-- A concrete library instance: every base64 string decodes, the key is
well formed, every verification returns `sigOk`, and SHA-256 is the given
function. -/
def testLib (sigOk : Bool) (h : Bytes → String) : CryptoLib :=
  { b64decode := fun _ => Except.ok [],
    sha256hex := h,
    utf8encode := fun _ => [],
    makeVerifyKey := fun _ => Except.ok (),
    edVerifyE := fun _ _ _ => Except.ok sigOk,
    canonical := fun _ => [] }

/-- A network where every peer request raises. -/
def net0 : Net := fun _ _ => none

/-- The empty local state (fresh node). -/
def st0 : NodeState :=
  { events := [], nodes := [], users := [], meta := [], entries := [], storage := [] }

/-- A user id (64 lowercase hex). -/
def uidU : String := "aaaaaaaaaaaaaaaaaaaaaaaaaaaaaaaaaaaaaaaaaaaaaaaaaaaaaaaaaaaaaaaa"

/-- Another user id (64 lowercase hex). -/
def uidV : String := "bbbbbbbbbbbbbbbbbbbbbbbbbbbbbbbbbbbbbbbbbbbbbbbbbbbbbbbbbbbbbbbb"

/-- A node id (64 lowercase hex). -/
def nidA : String := "cccccccccccccccccccccccccccccccccccccccccccccccccccccccccccccccc"

/-- Another node id (64 lowercase hex). -/
def nidB : String := "dddddddddddddddddddddddddddddddddddddddddddddddddddddddddddddddd"

/-- A file id (64 lowercase hex). -/
def fidF : String := "eeeeeeeeeeeeeeeeeeeeeeeeeeeeeeeeeeeeeeeeeeeeeeeeeeeeeeeeeeeeeeee"

/-- A block id. -/
def blk1 : String := "0x1111111111111111111111111111111111111111111111111111111111111111"

/-- An authorized-user entry for U. -/
def auU : AuthorizedUser := { user_id := uidU, encrypted_key := "a2V5", iv := "aXY=" }

/-- An authorized-user entry for V. -/
def auV : AuthorizedUser := { user_id := uidV, encrypted_key := "a2V5", iv := "aXY=" }

/-- A registry row for node A. -/
def nodeRowA : NodeRow :=
  { alias_field := "node-a", hostname := "host-a", public_key := "QUFBQQ==",
    platform := "linux", software_version := "dfs3-node/0.3.1", uptime := 0,
    total_space := 0, ip := "10.0.0.1", port := 5000, tags := "",
    creation_date := 0, version := 1, last_seen := 0 }

/-- A state that already knows node A. -/
def stA : NodeState := { st0 with nodes := [(nidA, nodeRowA)] }

/-- A library where every signature verifies. -/
def libT : CryptoLib := testLib true (fun _ => "")

-- C1 fixtures: the same file_created event ingested twice.

/-- This node is node A (the emitter), so the clone branch is skipped. -/
def cfg1 : Config := { node_id := nidA, status := "run" }

/-- A file_created payload owned by user U. -/
def p1 : FileCreatedPayload :=
  { user_id := uidU, file_id := fidF, filename := "a.pdf", size := 1,
    mimetype := "application/pdf", sha256 := fidF, iv := "aXY=",
    authorized_users := [auU],
    tags := [], version := 1 }

/-- The envelope of p1, emitted by node A. -/
def e1 : Event :=
  { timestamp := 5, node_id := nidA, protocol := "dfs3/1.0",
    payload := Payload.file_created p1, signature := "c2ln" }

/-- State after ingesting (blk1, e1) once. -/
def c1_state1 : NodeState :=
  match process_event libT cfg1 net0 stA e1 blk1 with
  | .ok r => r.1
  | .error _ => stA

/-- State after ingesting (blk1, e1) a second time. -/
def c1_state2 : NodeState :=
  match process_event libT cfg1 net0 c1_state1 e1 blk1 with
  | .ok r => r.1
  | .error _ => c1_state1

-- C5 fixtures: a small file_created from node A, this node is B.

/-- This node is node B, not the emitter. -/
def cfg5 : Config := { node_id := nidB, status := "run" }

/-- Everything verifies and every content hashes to fidF. -/
def lib5 : CryptoLib := testLib true (fun _ => fidF)

/-- Node A serves the blob fidF with body [9]. -/
def net5 : Net := fun n f => if n = nidA ∧ f = fidF then some (200, [9]) else none

/-- A small file_created payload (size 1 < EC_MIN_SIZE). -/
def p5 : FileCreatedPayload :=
  { user_id := uidU, file_id := fidF, filename := "b.pdf", size := 1,
    mimetype := "application/pdf", sha256 := fidF, iv := "aXY=",
    authorized_users := [auU],
    tags := [], version := 1 }

/-- The envelope of p5, emitted by node A. -/
def e5 : Event :=
  { timestamp := 6, node_id := nidA, protocol := "dfs3/1.0",
    payload := Payload.file_created p5, signature := "c2ln" }

/-- State after node B ingests (blk1, e5). -/
def c5_state1 : NodeState :=
  match process_event lib5 cfg5 net5 stA e5 blk1 with
  | .ok r => r.1
  | .error _ => stA

/-- file_replicated emissions of that ingestion. -/
def c5_emits : List String :=
  match process_event lib5 cfg5 net5 stA e5 blk1 with
  | .ok r => r.2
  | .error _ => []

-- C7 fixture: a file_created payload that does not list its owner.

/-- Valid per the payload validators (no duplicate user_ids), but the
owner U is not among the authorized users. -/
def p7 : FileCreatedPayload :=
  { user_id := uidU, file_id := fidF, filename := "c.pdf", size := 1,
    mimetype := "application/pdf", sha256 := fidF, iv := "aXY=",
    authorized_users := [auV],
    tags := [], version := 1 }

/-- The envelope of p7, emitted by node A (= this node, so no clone). -/
def e7 : Event :=
  { timestamp := 7, node_id := nidA, protocol := "dfs3/1.0",
    payload := Payload.file_created p7, signature := "c2ln" }

-- C4 fixtures: uploads.

/-- Valid upload metadata for fidF. -/
def meta4 : UploadMeta :=
  { filename := "d.pdf", file_id := fidF, size := 1,
    mimetype := "application/pdf", sha256 := fidF, iv := "aXY=", tags := [],
    authorized_users := [auU] }

/-- A ciphertext one byte over the 10 MiB limit. -/
def bigC : Bytes := List.replicate (MAX_FILE_SIZE + 1) 0

/-- A file_deleted envelope from node B, which is unknown to st0. -/
def eDel : Event :=
  { timestamp := 8, node_id := nidB, protocol := "dfs3/1.0",
    payload := Payload.file_deleted { user_id := uidU, file_id := fidF, filename := "a.pdf" },
    signature := "c2ln" }

/-- A node_registered payload for node B. -/
def pNR : NodeRegisteredPayload :=
  { alias_field := "node-b", hostname := "host-b", public_key := "QkJCQg==",
    platform := "linux", software_version := "dfs3-node/0.3.1", uptime := 3,
    total_space := 100, ip := "10.0.0.2", port := 5000, tags := [], version := 1 }

/-- The envelope of pNR. -/
def eNR : Event :=
  { timestamp := 9, node_id := nidB, protocol := "dfs3/1.0",
    payload := Payload.node_registered pNR, signature := "c2ln" }

/-- The metadata document that ingesting e1 writes for fidF. -/
def mW : FileMeta :=
  { file_id := fidF, size := 1, mimetype := "application/pdf", sha256 := fidF,
    iv := "aXY=", authorized_users := [auU], tags := [], version := 1,
    owner := uidU, creation_date := 5, replica_nodes := [nidA] }

/-- That document after sharing with V. -/
def mW2 : FileMeta := { mW with authorized_users := [auU, auV] }

/-- A state holding only the metadata document mW. -/
def stM : NodeState := { st0 with meta := [(fidF, mW)] }

/-- A file_shared payload adding V to fidF. -/
def pSh : FileSharedPayload :=
  { user_id := uidU, file_id := fidF, filename := "a.pdf", authorized_users := [auV] }

-- ---------------------------------------------------------------------
-- Helper lemmas.
-- ---------------------------------------------------------------------

theorem lookupA_eq_none_iff {α β : Type} [DecidableEq α] (l : List (α × β)) (k : α) :
    lookupA l k = none ↔ ∀ q ∈ l, q.1 ≠ k := by
  simp [lookupA, List.find?_eq_none]

theorem filter_ne_of_lookupA_none {α β : Type} [DecidableEq α] (l : List (α × β)) (k : α)
    (h : lookupA l k = none) : l.filter (fun q => decide (q.1 ≠ k)) = l := by
  rw [List.filter_eq_self]
  intro q hq
  simpa using (lookupA_eq_none_iff l k).mp h q hq

-- ---------------------------------------------------------------------
-- Claim theorems.
-- ---------------------------------------------------------------------

/-- Claim C2: for an event whose signature verification returns false,
process_event runs no type-specific handler, leaves the whole local state
(registries, metadata, entries, blobs, event index) unchanged, emits
nothing, and returns normally, so the listener continues. -/
theorem c2_invalid_signature_no_mutation (lib : CryptoLib) (cfg : Config) (net : Net)
    (st : NodeState) (e : Event) (b : String)
    (h : verify_signature lib st e = Except.ok false) :
    process_event lib cfg net st e b = Except.ok (st, []) := by
  unfold process_event
  rw [h]
  rfl

/-- Witness for C2: a file_deleted event from an emitter unknown to the
empty state is rejected and everything is left unchanged. -/
theorem c2_witness :
    verify_signature libT st0 eDel = Except.ok false ∧
    process_event libT cfg1 net0 st0 eDel blk1 = Except.ok (st0, []) :=
  ⟨rfl, c2_invalid_signature_no_mutation libT cfg1 net0 st0 eDel blk1 rfl⟩

/-- Claim C3: signature verification takes the key from payload.public_key
exactly for node_registered events; for every other type the key is looked
up from the node registry by the envelope's node_id, and an unknown
emitter makes verification return false. -/
theorem c3_key_resolution :
    (∀ (lib : CryptoLib) (st : NodeState) (e : Event) (p : NodeRegisteredPayload),
      e.payload = Payload.node_registered p →
      verify_signature lib st e = verifyWithKey lib p.public_key e) ∧
    (∀ (lib : CryptoLib) (st : NodeState) (e : Event),
      e.eventType ≠ "node_registered" →
      get_public_key_node st e.node_id = none →
      verify_signature lib st e = Except.ok false) ∧
    (∀ (lib : CryptoLib) (st : NodeState) (e : Event) (k64 : String),
      e.eventType ≠ "node_registered" →
      get_public_key_node st e.node_id = some k64 →
      verify_signature lib st e = verifyWithKey lib k64 e) := by
  refine ⟨?_, ?_, ?_⟩
  · intro lib st e p hp
    unfold verify_signature
    rw [hp]
  · intro lib st e h hk
    unfold verify_signature
    cases hpay : e.payload <;>
      simp_all [Event.eventType, Payload.eventType]
  · intro lib st e k64 h hk
    unfold verify_signature
    cases hpay : e.payload <;>
      simp_all [Event.eventType, Payload.eventType]

/-- Witness for C3: the three key resolutions at concrete events — a
node_registered event uses the payload key, a file_deleted event from an
unknown emitter is rejected, and a file_created event from a registered
emitter uses the registry key. -/
theorem c3_witness :
    verify_signature libT st0 eNR = verifyWithKey libT pNR.public_key eNR ∧
    verify_signature libT st0 eDel = Except.ok false ∧
    verify_signature libT stA e1 = verifyWithKey libT nodeRowA.public_key e1 :=
  ⟨c3_key_resolution.1 libT st0 eNR pNR rfl,
   c3_key_resolution.2.1 libT st0 eDel (by decide) rfl,
   c3_key_resolution.2.2 libT stA e1 nodeRowA.public_key (by decide) rfl⟩

/-- Claim C8: ingesting a file_deleted event removes only the emitter
user's (user_id, filename) entry link: the metadata documents, the blob
store, both registries and the event index are untouched, and every entry
with a different (user, filename) key survives unchanged. -/
theorem c8_file_deleted_frame (st : NodeState) (p : FileRefPayload) :
    (delete st p).meta = st.meta ∧
    (delete st p).storage = st.storage ∧
    (delete st p).nodes = st.nodes ∧
    (delete st p).users = st.users ∧
    (delete st p).events = st.events ∧
    (delete st p).entries =
      st.entries.filter (fun q => decide (q.1 ≠ (p.user_id, p.filename))) := by
  unfold delete
  cases h : lookupA st.entries (p.user_id, p.filename) with
  | none => exact ⟨rfl, rfl, rfl, rfl, rfl, (filter_ne_of_lookupA_none _ _ h).symm⟩
  | some fid => exact ⟨rfl, rfl, rfl, rfl, rfl, rfl⟩

/-- Claim C10: the login-path signature check utils/crypto.verify_signature
is total — the bare except returns False on every raised exception — and
returns True exactly when the key decodes, the VerifyKey is well formed,
the signature decodes, and Ed25519 verification succeeds over the UTF-8
text. -/
theorem c10_crypto_verify_total (lib : CryptoLib) (pk text sig : String) :
    utils_verify_signature lib pk text sig = true ↔
      ∃ k, lib.b64decode pk = Except.ok k ∧ lib.makeVerifyKey k = Except.ok () ∧
        ∃ s, lib.b64decode sig = Except.ok s ∧
          lib.edVerifyE k (lib.utf8encode text) s = Except.ok true := by
  unfold utils_verify_signature
  cases hk : lib.b64decode pk with
  | error m => simp [hk]
  | ok k =>
    cases hv : lib.makeVerifyKey k with
    | error m => simp [hk, hv]
    | ok u =>
      cases u
      cases hs : lib.b64decode sig with
      | error m => simp [hk, hv, hs]
      | ok s =>
        cases hr : lib.edVerifyE k (lib.utf8encode text) s with
        | error m => simp [hk, hv, hs, hr]
        | ok b => cases b <;> simp [hk, hv, hs, hr]

/-- Claim C6 (code bug): when the peer stream fails or the client
disconnects after two chunks, stream_and_store leaves the partial blob
[1, 2, 3] on disk and emits nothing, where the specification prescribes
deleting the partial file; on success the full blob is kept and
file_replicated is emitted. -/
theorem c6_partial_file_kept :
    stream_and_store [[1, 2], [3]] true = (some [1, 2, 3], false) ∧
    spec_stream_and_store_file [[1, 2], [3]] true = none ∧
    stream_and_store [[1, 2], [3]] false = (some [1, 2, 3], true) :=
  ⟨rfl, rfl, rfl⟩

/-- Claim C1 (code bug): ingesting the same file_created envelope twice
under the same block_id is not a no-op.  process_event dispatches the
handler before any duplicate check, so the second ingestion creates a
second entry link "a (1).pdf" for the owner, even though the event index
itself is unchanged (its primary key rejects the duplicate row). -/
theorem c1_double_ingest_not_noop :
    lookupA c1_state1.entries (uidU, "a.pdf") = some fidF ∧
    lookupA c1_state1.entries (uidU, "a (1).pdf") = none ∧
    lookupA c1_state2.entries (uidU, "a (1).pdf") = some fidF ∧
    c1_state2.events = c1_state1.events ∧
    c1_state2 ≠ c1_state1 := by decide

/-- Claim C5 counterexample: node B's registry holds only the emitter A,
so no row gives B the spec's eligibility (uptime ≥ 1 day, recent
activity, free space, top-K) — spec_clone_eligibility is false — yet
ingesting a small file_created from A still fetches the blob and emits
file_replicated, because the code's criterion is only "the emitter is not
this node". -/
theorem c5_clone_without_eligibility :
    spec_clone_eligibility stA cfg5 1000 nidA 1 = false ∧
    should_clone_from cfg5 nidA 1 = true ∧
    lookupA c5_state1.storage fidF = some [9] ∧
    c5_emits = [fidF] := by decide

/-- Claim C5 amended: on a file_created event this node clones from the
emitter exactly when the size is below EC_MIN_SIZE, the emitter is not
this node, and the node is not in seeding ('syncing') state — the spec's
fuller eligibility query is unreachable dead code.  When it clones and
the emitter is registered and responds 200 within the size limit, the
SHA-256 of the received content against file_id decides: a match stores
the blob and emits file_replicated, a mismatch stores nothing and emits
nothing. -/
theorem c5_amended (lib : CryptoLib) (cfg : Config) (net : Net) (st : NodeState)
    (e : Event) (p : FileCreatedPayload) :
    (¬ (p.size < EC_MIN_SIZE ∧ cfg.node_id ≠ e.node_id ∧ cfg.status ≠ "syncing") →
      (create lib cfg net st e p).1.storage = st.storage ∧
      (create lib cfg net st e p).2 = []) ∧
    (∀ c : Bytes, p.size < EC_MIN_SIZE → cfg.node_id ≠ e.node_id →
      cfg.status ≠ "syncing" →
      (lookupA st.nodes e.node_id).isSome →
      net e.node_id p.file_id = some (200, c) →
      c.length ≤ MAX_FILE_SIZE →
      (lib.sha256hex c = p.file_id →
        (create lib cfg net st e p).1.storage = upsert st.storage p.file_id c ∧
        (create lib cfg net st e p).2 = [p.file_id]) ∧
      (lib.sha256hex c ≠ p.file_id →
        (create lib cfg net st e p).1.storage = st.storage ∧
        (create lib cfg net st e p).2 = [])) := by
  constructor
  · intro h
    unfold create
    rw [if_neg]
    · exact ⟨rfl, rfl⟩
    · intro hc
      refine h ⟨hc.1, ?_, hc.2.2⟩
      simpa [should_clone_from, bne_iff_ne] using hc.2.1
  · intro c hsz hne hst hreg hnet hlen
    have hcond : p.size < EC_MIN_SIZE ∧ should_clone_from cfg e.node_id p.size = true ∧
        cfg.status ≠ "syncing" :=
      ⟨hsz, by simpa [should_clone_from, bne_iff_ne] using hne, hst⟩
    obtain ⟨row, hrow⟩ := Option.isSome_iff_exists.mp hreg
    have h200 : ¬ ((200 : Nat) ≠ 200) := by simp
    have hlen2 : ¬ (c.length > MAX_FILE_SIZE) := by omega
    constructor
    · intro hmatch
      have hmm : ¬ (p.file_id ≠ lib.sha256hex c) := by simp [hmatch]
      unfold create
      rw [if_pos hcond]
      unfold clone
      dsimp only
      rw [hrow, hnet]
      dsimp only
      rw [if_neg h200, if_neg hlen2, if_neg hmm]
      exact ⟨rfl, rfl⟩
    · intro hmm
      have hmm2 : p.file_id ≠ lib.sha256hex c := fun hh => hmm hh.symm
      unfold create
      rw [if_pos hcond]
      unfold clone
      dsimp only
      rw [hrow, hnet]
      dsimp only
      rw [if_neg h200, if_neg hlen2, if_pos hmm2]
      exact ⟨rfl, rfl⟩

/-- Witness for the amended C5: the emitter node does not clone its own
file_created, and node B clones fidF from node A, storing body [9] and
emitting file_replicated. -/
theorem c5_witness :
    ((create libT cfg1 net0 stA e1 p1).1.storage = stA.storage ∧
      (create libT cfg1 net0 stA e1 p1).2 = []) ∧
    ((create lib5 cfg5 net5 stA e5 p5).1.storage = upsert stA.storage fidF [9] ∧
      (create lib5 cfg5 net5 stA e5 p5).2 = [fidF]) :=
  ⟨(c5_amended libT cfg1 net0 stA e1 p1).1 (by decide),
   ((c5_amended lib5 cfg5 net5 stA e5 p5).2 [9] (by decide) (by decide) (by decide)
      (by decide) (by decide) (by decide)).1 (by decide)⟩

-- Helper lemmas for upserts, clone framing and the share merge.

theorem find?_key_map_replace {α β : Type} [DecidableEq α] (l : List (α × β)) (k : α) (v : β)
    (h : l.any (fun p => p.1 = k) = true) :
    (l.map (fun p => if p.1 = k then (k, v) else p)).find? (fun p => p.1 = k) = some (k, v) := by
  induction l with
  | nil => simp at h
  | cons a t ih =>
    by_cases ha : a.1 = k
    · simp [List.find?_cons, ha]
    · have ht : t.any (fun p => p.1 = k) = true := by
        simp only [List.any_cons] at h
        simpa [ha] using h
      simp [List.find?_cons, ha, ih ht]

theorem find?_key_append_single {α β : Type} [DecidableEq α] (l : List (α × β)) (k : α) (v : β)
    (h : l.any (fun p => p.1 = k) = false) :
    (l ++ [(k, v)]).find? (fun p => p.1 = k) = some (k, v) := by
  induction l with
  | nil => simp
  | cons a t ih =>
    simp only [List.any_cons, Bool.or_eq_false_iff] at h
    have ha : ¬ (a.1 = k) := by simpa using h.1
    simp [List.find?_cons, ha, ih h.2]

theorem lookupA_upsert {α β : Type} [DecidableEq α] (l : List (α × β)) (k : α) (v : β) :
    lookupA (upsert l k v) k = some v := by
  unfold upsert lookupA
  by_cases h : l.any (fun p => p.1 = k) = true
  · rw [if_pos h, find?_key_map_replace l k v h]
    rfl
  · rw [if_neg h, find?_key_append_single l k v (Bool.eq_false_iff.mpr h)]
    rfl

theorem clone_meta (lib : CryptoLib) (net : Net) (st : NodeState) (nid fid : String) :
    (clone lib net st nid fid).1.meta = st.meta := by
  unfold clone
  cases lookupA st.nodes nid with
  | none => rfl
  | some r =>
    cases net nid fid with
    | none => rfl
    | some pr =>
      obtain ⟨status, content⟩ := pr
      dsimp only
      split_ifs <;> rfl

theorem create_meta (lib : CryptoLib) (cfg : Config) (net : Net) (st : NodeState)
    (e : Event) (p : FileCreatedPayload) :
    (create lib cfg net st e p).1.meta =
      upsert st.meta p.file_id
        { file_id := p.file_id, size := p.size, mimetype := p.mimetype,
          sha256 := p.sha256, iv := p.iv, authorized_users := p.authorized_users,
          tags := p.tags, version := 1, owner := p.user_id,
          creation_date := e.timestamp, replica_nodes := [e.node_id] } := by
  unfold create
  dsimp only
  split_ifs
  · rw [clone_meta]
  · rfl

theorem foldl_shareStep_fst (fid fname : String) (users : List AuthorizedUser) :
    ∀ acc : List AuthorizedUser × NodeState,
      (users.foldl (shareStep fid fname) acc).1 =
        users.foldl (fun l u => ordUpsert l u) acc.1 := by
  induction users with
  | nil => intro acc; rfl
  | cons u t ih =>
    intro acc
    simpa [List.foldl_cons, shareStep] using ih (shareStep fid fname acc u)

theorem foldl_shareStep_meta (fid fname : String) (users : List AuthorizedUser) :
    ∀ acc : List AuthorizedUser × NodeState,
      (users.foldl (shareStep fid fname) acc).2.meta = acc.2.meta := by
  induction users with
  | nil => intro acc; rfl
  | cons u t ih =>
    intro acc
    simpa [List.foldl_cons, shareStep] using ih (shareStep fid fname acc u)

theorem ordUpsert_ids_of_present (l : List AuthorizedUser) (u : AuthorizedUser)
    (h : l.any (fun v => v.user_id = u.user_id) = true) :
    (ordUpsert l u).map (fun v => v.user_id) = l.map (fun v => v.user_id) := by
  unfold ordUpsert
  rw [if_pos h, List.map_map]
  apply List.map_congr_left
  intro v _
  by_cases hv : v.user_id = u.user_id
  · simp [hv]
  · simp [hv]

theorem ordUpsert_ids_of_absent (l : List AuthorizedUser) (u : AuthorizedUser)
    (h : l.any (fun v => v.user_id = u.user_id) = false) :
    (ordUpsert l u).map (fun v => v.user_id) =
      l.map (fun v => v.user_id) ++ [u.user_id] := by
  unfold ordUpsert
  rw [if_neg (by simp [h])]
  simp

theorem ordUpsert_ids_nodup (l : List AuthorizedUser) (u : AuthorizedUser)
    (h : (l.map (fun v => v.user_id)).Nodup) :
    ((ordUpsert l u).map (fun v => v.user_id)).Nodup := by
  cases hp : l.any (fun v => v.user_id = u.user_id) with
  | true => rw [ordUpsert_ids_of_present l u hp]; exact h
  | false =>
    rw [ordUpsert_ids_of_absent l u hp]
    have hmem : u.user_id ∉ l.map (fun v => v.user_id) := by
      rw [List.any_eq_false] at hp
      intro hin
      obtain ⟨v, hv, hveq⟩ := List.mem_map.mp hin
      exact absurd (by simpa using hveq) (by simpa using hp v hv)
    rw [List.nodup_append]
    exact ⟨h, List.nodup_singleton _, by
      intro x hx hy
      simp only [List.mem_singleton] at hy
      subst hy
      exact hmem hx⟩

theorem nodup_of_check (users : List AuthorizedUser)
    (h : check_duplicate_user_ids users = true) :
    (users.map (fun u => u.user_id)).Nodup := by
  unfold check_duplicate_user_ids at h
  rw [List.all_eq_true] at h
  rw [List.nodup_iff_count_le_one]
  intro a
  by_cases ha : a ∈ users.map (fun u => u.user_id)
  · simpa using h a ha
  · simp [List.count_eq_zero_of_not_mem ha]

theorem foldl_ordUpsert_nodup (users : List AuthorizedUser) :
    ∀ l : List AuthorizedUser, (l.map (fun v => v.user_id)).Nodup →
      ((users.foldl (fun a u => ordUpsert a u) l).map (fun v => v.user_id)).Nodup := by
  induction users with
  | nil => intro l h; exact h
  | cons u t ih => intro l h; exact ih _ (ordUpsert_ids_nodup l u h)

theorem foldl_ordUpsert_mem (users : List AuthorizedUser) (k : String) :
    ∀ l : List AuthorizedUser, k ∈ l.map (fun v => v.user_id) →
      k ∈ (users.foldl (fun a u => ordUpsert a u) l).map (fun v => v.user_id) := by
  induction users with
  | nil => intro l h; exact h
  | cons u t ih =>
    intro l h
    apply ih
    cases hp : l.any (fun v => v.user_id = u.user_id) with
    | true => rw [ordUpsert_ids_of_present l u hp]; exact h
    | false => rw [ordUpsert_ids_of_absent l u hp]; exact List.mem_append_left _ h

/-- Claim C4 counterexample: an upload whose ciphertext is both one byte
over the 10 MiB limit and hash-mismatched is answered 413, not the 400
the claim requires for every mismatched upload: the size check runs
before the integrity check. -/
theorem c4_oversize_mismatch_is_413 :
    meta4.file_id ≠ libT.sha256hex bigC ∧
    (api_upload_file libT true st0 uidU (some meta4) bigC).1 = 413 := by
  constructor
  · decide
  · unfold api_upload_file
    dsimp only
    rw [if_pos]
    show (List.replicate (MAX_FILE_SIZE + 1) 0).length > MAX_FILE_SIZE
    rw [List.length_replicate]
    omega

/-- Claim C4 amended: with parsed metadata, an oversized body is rejected
413 without writing or emitting; a body within the limit whose SHA-256
differs from metadata.file_id is rejected 400 without writing or
emitting; and an accepted upload stores the ciphertext at file_id, where
it hashes to file_id, answering 201 (500 only when publishing the
file_created event fails, the blob already written). -/
theorem c4_amended (lib : CryptoLib) (pub : Bool) (st : NodeState) (u : String)
    (m : UploadMeta) (contents : Bytes) :
    (contents.length > MAX_FILE_SIZE →
      api_upload_file lib pub st u (some m) contents = (413, st, false)) ∧
    (contents.length ≤ MAX_FILE_SIZE → m.file_id ≠ lib.sha256hex contents →
      api_upload_file lib pub st u (some m) contents = (400, st, false)) ∧
    (contents.length ≤ MAX_FILE_SIZE → m.file_id = lib.sha256hex contents →
      lookupA (api_upload_file lib pub st u (some m) contents).2.1.storage m.file_id =
        some contents ∧
      lib.sha256hex contents = m.file_id ∧
      (api_upload_file lib pub st u (some m) contents).1 = (if pub then 201 else 500) ∧
      (api_upload_file lib pub st u (some m) contents).2.2 = pub) := by
  refine ⟨?_, ?_, ?_⟩
  · intro h
    unfold api_upload_file
    dsimp only
    rw [if_pos h]
  · intro hle hne
    unfold api_upload_file
    dsimp only
    rw [if_neg (by omega), if_pos hne]
  · intro hle heq
    unfold api_upload_file
    dsimp only
    rw [if_neg (by omega), if_neg (by simp [heq])]
    cases pub <;> exact ⟨lookupA_upsert _ _ _, heq.symm, rfl, rfl⟩

/-- Witness for the amended C4: a one-byte upload with a wrong hash is
rejected 400 with nothing stored; with the right hash it is stored at
file_id and answered 201. -/
theorem c4_witness :
    api_upload_file libT true st0 uidU (some meta4) [7] = (400, st0, false) ∧
    (lookupA (api_upload_file lib5 true st0 uidU (some meta4) [7]).2.1.storage
        fidF = some [7] ∧
      lib5.sha256hex [7] = fidF ∧
      (api_upload_file lib5 true st0 uidU (some meta4) [7]).1 = (if true then 201 else 500) ∧
      (api_upload_file lib5 true st0 uidU (some meta4) [7]).2.2 = true) :=
  ⟨(c4_amended libT true st0 uidU meta4 [7]).2.1 (by decide) (by decide),
   (c4_amended lib5 true st0 uidU meta4 [7]).2.2 (by decide) (by decide)⟩

/-- Claim C7 counterexample: a file_created payload that passes the
duplicate-user_ids validator and whose ids are well-formed 64-hex, but
whose authorized_users do not include the owner, produces a metadata
document with owner ∉ {u.user_id : u ∈ authorized_users}: the membership
half of the invariant is not enforced anywhere. -/
theorem c7_owner_not_in_authorized :
    check_duplicate_user_ids p7.authorized_users = true ∧
    isHex64 uidU = true ∧ isHex64 uidV = true ∧ isHex64 fidF = true ∧
    (create libT cfg1 net0 st0 e7 p7).1.meta.map
        (fun q => (q.2.owner, q.2.authorized_users.map (fun v => v.user_id))) =
      [(uidU, [uidV])] ∧
    uidU ≠ uidV := by decide

/-- Claim C7 amended: every metadata document written by the file_created
handler carries the validated payload's authorized_users (duplicate-free
whenever the payload validator accepted them) with owner = payload
user_id — owner membership holds only when the payload lists the owner —
and the file_shared merge preserves the owner, duplicate-freeness, and
owner membership in authorized_users. -/
theorem c7_amended :
    (∀ (lib : CryptoLib) (cfg : Config) (net : Net) (st : NodeState) (e : Event)
        (p : FileCreatedPayload) (m : FileMeta),
      check_duplicate_user_ids p.authorized_users = true →
      lookupA (create lib cfg net st e p).1.meta p.file_id = some m →
      (m.authorized_users.map (fun v => v.user_id)).Nodup ∧
      m.owner = p.user_id ∧ m.authorized_users = p.authorized_users) ∧
    (∀ (st : NodeState) (p : FileSharedPayload) (m m2 : FileMeta),
      lookupA st.meta p.file_id = some m →
      lookupA (share st p).meta p.file_id = some m2 →
      m2.owner = m.owner ∧
      ((m.authorized_users.map (fun v => v.user_id)).Nodup →
        (m2.authorized_users.map (fun v => v.user_id)).Nodup) ∧
      (m.owner ∈ m.authorized_users.map (fun v => v.user_id) →
        m2.owner ∈ m2.authorized_users.map (fun v => v.user_id))) := by
  constructor
  · intro lib cfg net st e p m hchk hlook
    rw [create_meta, lookupA_upsert] at hlook
    injection hlook with hm
    subst hm
    exact ⟨nodup_of_check p.authorized_users hchk, rfl, rfl⟩
  · intro st p m m2 hm hm2
    unfold share at hm2
    rw [hm] at hm2
    dsimp only at hm2
    rw [foldl_shareStep_meta, foldl_shareStep_fst] at hm2
    dsimp only at hm2
    rw [lookupA_upsert] at hm2
    injection hm2 with hm2
    subst hm2
    refine ⟨rfl, ?_, ?_⟩
    · intro h
      exact foldl_ordUpsert_nodup p.authorized_users m.authorized_users h
    · intro h
      exact foldl_ordUpsert_mem p.authorized_users m.owner m.authorized_users h

/-- Witness for the amended C7: the document written for p1 is
duplicate-free with owner U listed, and sharing it with V keeps the
owner, duplicate-freeness and owner membership. -/
theorem c7_witness :
    ((mW.authorized_users.map (fun v => v.user_id)).Nodup ∧
      mW.owner = p1.user_id ∧ mW.authorized_users = p1.authorized_users) ∧
    (mW2.owner = mW.owner ∧
      ((mW.authorized_users.map (fun v => v.user_id)).Nodup →
        (mW2.authorized_users.map (fun v => v.user_id)).Nodup) ∧
      (mW.owner ∈ mW.authorized_users.map (fun v => v.user_id) →
        mW2.owner ∈ mW2.authorized_users.map (fun v => v.user_id))) :=
  ⟨c7_amended.1 libT cfg1 net0 st0 e1 p1 mW (by decide) (by decide),
   c7_amended.2 stM pSh mW mW2 (by decide) (by decide)⟩

-- Helper lemmas for the collision-renaming loop: decimal rendering is
-- injective, the candidate names are pairwise distinct, and the bounded
-- loop finds the first free candidate.

theorem parseDec_append (l : List Char) (c : Char) :
    parseDec (l ++ [c]) = parseDec l * 10 + digVal c := by
  simp [parseDec, List.foldl_append]

theorem digVal_digChar (d : Nat) (h : d < 10) : digVal (digChar d) = d := by
  interval_cases d <;> rfl

theorem parse_natDecCore : ∀ fuel n : Nat, n < 10 ^ fuel →
    parseDec (natDecCore fuel n) = n := by
  intro fuel
  induction fuel with
  | zero =>
    intro n h
    interval_cases n
    rfl
  | succ f ih =>
    intro n h
    unfold natDecCore
    by_cases h10 : n < 10
    · rw [if_pos h10]
      simp [parseDec, digVal_digChar n h10]
    · rw [if_neg h10]
      have hdiv : n / 10 < 10 ^ f := by
        have hh : n < 10 ^ f * 10 := by
          calc n < 10 ^ (f + 1) := h
          _ = 10 ^ f * 10 := pow_succ 10 f
        exact (Nat.div_lt_iff_lt_mul (by norm_num)).mpr hh
      rw [parseDec_append, ih (n / 10) hdiv,
        digVal_digChar (n % 10) (Nat.mod_lt n (by norm_num))]
      omega

theorem parseDec_natDec (n : Nat) : parseDec (natDec n).data = n := by
  have h : n < 10 ^ (n + 1) :=
    lt_of_lt_of_le (Nat.lt_pow_self (by norm_num) n)
      (Nat.pow_le_pow_right (by norm_num) (Nat.le_succ n))
  exact parse_natDecCore (n + 1) n h

theorem candName_inj (name ext : String) {a b : Nat}
    (h : candName name ext a = candName name ext b) : a = b := by
  have hd := congrArg String.data h
  simp only [candName, String.data_append] at hd
  have h1 := List.append_cancel_right hd
  have h2 := List.append_cancel_right h1
  have h3 : (natDec a).data = (natDec b).data := List.append_cancel_left h2
  calc a = parseDec (natDec a).data := (parseDec_natDec a).symm
  _ = parseDec (natDec b).data := by rw [h3]
  _ = b := parseDec_natDec b

theorem availLoop_found (taken : List String) (name ext : String) :
    ∀ fuel counter : Nat,
      (∃ i, counter ≤ i ∧ i < counter + fuel ∧ candName name ext i ∉ taken) →
      ∃ N, counter ≤ N ∧ availLoop taken name ext fuel counter = candName name ext N ∧
        candName name ext N ∉ taken ∧
        ∀ M, counter ≤ M → M < N → candName name ext M ∈ taken := by
  intro fuel
  induction fuel with
  | zero =>
    intro counter h
    obtain ⟨i, h1, h2, _⟩ := h
    exact absurd h2 (by omega)
  | succ f ih =>
    intro counter h
    unfold availLoop
    dsimp only
    by_cases hc : candName name ext counter ∈ taken
    · rw [if_pos hc]
      have hex : ∃ i, counter + 1 ≤ i ∧ i < counter + 1 + f ∧
          candName name ext i ∉ taken := by
        obtain ⟨i, h1, h2, h3⟩ := h
        refine ⟨i, ?_, by omega, h3⟩
        rcases Nat.eq_or_lt_of_le h1 with rfl | hlt
        · exact absurd hc h3
        · omega
      obtain ⟨N, hN1, hN2, hN3, hN4⟩ := ih (counter + 1) hex
      refine ⟨N, by omega, hN2, hN3, ?_⟩
      intro M hM1 hM2
      rcases Nat.eq_or_lt_of_le hM1 with rfl | hlt
      · exact hc
      · exact hN4 M (by omega) hM2
    · rw [if_neg hc]
      exact ⟨counter, Nat.le_refl _, rfl, hc, fun M h1 h2 => absurd h2 (by omega)⟩

theorem exists_cand_free (taken : List String) (name ext : String) (counter : Nat) :
    ∃ i, counter ≤ i ∧ i < counter + (taken.length + 1) ∧
      candName name ext i ∉ taken := by
  by_contra hcon
  push_neg at hcon
  have hsub : (Finset.Ico counter (counter + (taken.length + 1))).image
      (candName name ext) ⊆ taken.toFinset := by
    intro s hs
    rw [Finset.mem_image] at hs
    obtain ⟨i, hi, rfl⟩ := hs
    rw [Finset.mem_Ico] at hi
    rw [List.mem_toFinset]
    exact hcon i hi.1 hi.2
  have hcard := Finset.card_le_card hsub
  rw [Finset.card_image_of_injective _
    (fun a b hab => candName_inj name ext hab)] at hcard
  rw [Nat.card_Ico] at hcard
  have hlen := taken.toFinset_card_le
  omega

/-- Claim C9: the collision-resolution function returns the desired name
when it is free; otherwise it returns the first name of the form
`name (N)ext` (N starting at 1 and incrementing by 1) that is not taken;
in every case the returned name is not already present in the user's
directory. -/
theorem c9_collision_rename (taken : List String) (f : String) :
    (f ∉ taken → get_available_filename_path taken f = f) ∧
    (f ∈ taken → ∃ N, 1 ≤ N ∧
      get_available_filename_path taken f = candName (splitExt f).1 (splitExt f).2 N ∧
      candName (splitExt f).1 (splitExt f).2 N ∉ taken ∧
      ∀ M, 1 ≤ M → M < N → candName (splitExt f).1 (splitExt f).2 M ∈ taken) ∧
    get_available_filename_path taken f ∉ taken := by
  by_cases hf : f ∈ taken
  · have hex := exists_cand_free taken (splitExt f).1 (splitExt f).2 1
    obtain ⟨N, hN1, hN2, hN3, hN4⟩ :=
      availLoop_found taken (splitExt f).1 (splitExt f).2 (taken.length + 1) 1 hex
    have hr : get_available_filename_path taken f =
        candName (splitExt f).1 (splitExt f).2 N := by
      unfold get_available_filename_path
      dsimp only
      rw [if_pos hf]
      exact hN2
    refine ⟨fun h => absurd hf h, fun _ => ⟨N, hN1, hr, hN3, hN4⟩, ?_⟩
    rw [hr]
    exact hN3
  · have hr : get_available_filename_path taken f = f := by
      unfold get_available_filename_path
      dsimp only
      rw [if_neg hf]
    exact ⟨fun _ => hr, fun h => absurd h hf, by rw [hr]; exact hf⟩

/-- Witness for C9: with "a.pdf" and "a (1).pdf" already present,
resolving "a.pdf" yields the first free numbered candidate (concretely
"a (2).pdf"), which is not in the directory. -/
theorem c9_witness :
    ("a.pdf" : String) ∈ ["a.pdf", "a (1).pdf"] ∧
    (∃ N, 1 ≤ N ∧
      get_available_filename_path ["a.pdf", "a (1).pdf"] "a.pdf" =
        candName (splitExt "a.pdf").1 (splitExt "a.pdf").2 N ∧
      candName (splitExt "a.pdf").1 (splitExt "a.pdf").2 N ∉
        ["a.pdf", "a (1).pdf"] ∧
      ∀ M, 1 ≤ M → M < N →
        candName (splitExt "a.pdf").1 (splitExt "a.pdf").2 M ∈
          ["a.pdf", "a (1).pdf"]) :=
  ⟨by decide, (c9_collision_rename ["a.pdf", "a (1).pdf"] "a.pdf").2.1 (by decide)⟩

-- Sanity checks of the executable model.

example : get_available_filename_path [] "a.pdf" = "a.pdf" := by decide

example : get_available_filename_path ["a.pdf", "a (1).pdf"] "a.pdf" = "a (2).pdf" := by
  decide

example : splitExt "archive.tar.gz" = ("archive.tar", ".gz") := by decide

example : natDec 210 = "210" := by decide

end Dfs3
